import Mathlib

/-!
Verification development for `react-grab` (`src/packages/react-grab/src/core.tsx`).

The file shallowly embeds the parts of the core that the properties below are
about:

* the copy orchestrator (`tryCopyWithFallback`, `copyElementAPI`), modelled as
  pure functions over an oracle for the external clipboard primitive
  (`utils/copy-content.js`, an asynchronous fallible `writeClipboard(text) ->
  boolean` per the interface section of the design document) and an oracle for
  per-element structured context (`getElementContext`, which may reject;
  `Promise.allSettled` semantics are modelled by per-element `Except` results).
  All hook invocations (`onBeforeCopy`, `onCopySuccess`, `onCopyError`,
  `onAfterCopy`) and clipboard write attempts are recorded in an event trace.

* the activation state machine, modelled as a record of the relevant Solid
  signals together with step functions translated handler-by-handler from the
  `keydown` / `keyup` / `mousedown` / `mouseup` / `click` / `visibilitychange`
  listeners and the timer callbacks.  Events originating from the overlay
  (`isEventFromOverlay`) are outside the model; the agent manager is modelled
  as never processing (`agentManager.isProcessing() = false`) except for the
  `hasAgent` branch of the pointer-up handler.  The hotkey predicates
  (`isTargetKeyCombination`, `isCLikeKey`, `MODIFIER_KEYS.includes`) live in
  external utility modules and are modelled as boolean fields of the incoming
  key event; the default option set (no `activationShortcut`, no
  `activationKey`, `allowActivationInsideInput = true`) is assumed when
  translating the `keyup` modifier computation.  The asynchronous hop through
  `getNearestComponentName(...).then(...)` in front of `executeCopyOperation`
  is modelled explicitly: a pointer-up that resolves a grab only increments a
  count of scheduled copy continuations (`pendingCopies`), a separate
  `copyOpRun` event models one such continuation resolving and running the
  synchronous prefix of `executeCopyOperation` (which raises `isCopying`), and
  `copyComplete` models its `finally` continuation.  Input events may
  interleave between the pointer-up and `copyOpRun`, exactly as the browser
  event loop permits.

Numeric constants (`DRAG_THRESHOLD_PX`, `BLUR_DEACTIVATION_THRESHOLD_MS`, ...)
are imported by the core from `constants.js`, which is not part of the source
under verification; they are kept abstract in a `Consts` record.
-/

namespace ReactGrab

/-- Stand-in for a DOM element: an identity plus the observable fields the core
reads (`tagName` and `innerText`/`textContent`). -/
structure Elem where
  id : Nat
  tag : String
  text : String
deriving DecidableEq, Repr

/-- Outcome of one clipboard write attempt (`copyContent`): the promise
resolves `true`, resolves `false`, or rejects with an error (errors are
represented by `Nat` codes). -/
inductive WriteRes where
  | ok : WriteRes
  | failed : WriteRes
  | threw : Nat → WriteRes
deriving DecidableEq, Repr

/-- Whether a write attempt rejected. -/
def WriteRes.isThrew : WriteRes → Bool
  | .threw _ => true
  | _ => false

/-- Observable events of one copy-orchestrator invocation: the optional hooks
and every clipboard write attempt, in program order. -/
inductive Ev where
  | beforeCopy (elements : List Elem)
  | writeAttempt (content : String) (result : WriteRes)
  | copySuccess (content : String)
  | copyError (e : Nat)
  | afterCopy (elements : List Elem) (didCopy : Bool)
deriving DecidableEq, Repr

/-- Recognises `afterCopy` events. -/
def Ev.isAfterCopy : Ev → Bool
  | .afterCopy _ _ => true
  | _ => false

/-- Recognises `copySuccess` events. -/
def Ev.isCopySuccess : Ev → Bool
  | .copySuccess _ => true
  | _ => false

/-- Recognises `copyError` events. -/
def Ev.isCopyError : Ev → Bool
  | .copyError _ => true
  | _ => false

/-- Recognises `beforeCopy` events. -/
def Ev.isBeforeCopy : Ev → Bool
  | .beforeCopy _ => true
  | _ => false

/-- JavaScript `String.prototype.trim()`: strips whitespace from both ends.
(Defined by structural recursion over the character list so that concrete
instances evaluate inside the kernel.) -/
def jsTrim (s : String) : String :=
  ⟨((s.data.dropWhile Char.isWhitespace).reverse.dropWhile Char.isWhitespace).reverse⟩

/-- `extractElementTextContent`: the element's rendered text
(`innerText`, falling back to `textContent`; both are the `text` field of the
model element). -/
def extractElementTextContent (el : Elem) : String := el.text

/-- `createCombinedTextContent`: per-element text, trimmed, empty entries
dropped, joined by blank lines. -/
def createCombinedTextContent (elements : List Elem) : String :=
  String.intercalate "\n\n"
    ((elements.map (fun el => jsTrim (extractElementTextContent el))).filter
      (fun t => !t.isEmpty))

/-- The `extraPrompt ? `${extraPrompt}\n\n${content}` : content` pattern of
`tryCopyWithFallback`. -/
def withInstruction (extraPrompt : Option String) (content : String) : String :=
  match extraPrompt with
  | some p => p ++ "\n\n" ++ content
  | none => content

/-- The fulfilled, non-blank snippets of `Promise.allSettled(elements.map(el =>
getElementContext(el, ...)))`, kept untrimmed and in element order. -/
def structuredSnippets (ctx : Elem → Except Nat String) (elements : List Elem) :
    List String :=
  elements.filterMap (fun el =>
    match ctx el with
    | .ok s => if (jsTrim s).isEmpty then none else some s
    | .error _ => none)

/-- The content written by the structured path: joined snippets with the
instruction prefixed. -/
def structuredContent (ctx : Elem → Except Nat String) (elements : List Elem)
    (extraPrompt : Option String) : String :=
  withInstruction extraPrompt (String.intercalate "\n\n" (structuredSnippets ctx elements))

/-- The content written by the plain-text fallback: combined text content with
the instruction prefixed. -/
def fallbackContent (elements : List Elem) (extraPrompt : Option String) : String :=
  withInstruction extraPrompt (createCombinedTextContent elements)

/-- The `try` block of `tryCopyWithFallback`: structured write, then (when the
structured path produced no successful write) the plain-text fallback write,
then `onCopySuccess` when a write succeeded.  Returns the events emitted, the
number of write attempts consumed, and either the `didCopy` flag or the error
a write attempt rejected with.  The write oracle is consulted by attempt
index. -/
def tryBlock (write : Nat → WriteRes) (ctx : Elem → Except Nat String)
    (elements : List Elem) (extraPrompt : Option String) :
    List Ev × Nat × Except Nat Bool :=
  if (structuredSnippets ctx elements).isEmpty then
    if (createCombinedTextContent elements).isEmpty then
      ([], 0, .ok false)
    else
      match write 0 with
      | .ok =>
        ([.writeAttempt (fallbackContent elements extraPrompt) .ok,
          .copySuccess (fallbackContent elements extraPrompt)], 1, .ok true)
      | .failed =>
        ([.writeAttempt (fallbackContent elements extraPrompt) .failed], 1, .ok false)
      | .threw e =>
        ([.writeAttempt (fallbackContent elements extraPrompt) (.threw e)], 1, .error e)
  else
    match write 0 with
    | .ok =>
      ([.writeAttempt (structuredContent ctx elements extraPrompt) .ok,
        .copySuccess (structuredContent ctx elements extraPrompt)], 1, .ok true)
    | .threw e =>
      ([.writeAttempt (structuredContent ctx elements extraPrompt) (.threw e)], 1, .error e)
    | .failed =>
      if (createCombinedTextContent elements).isEmpty then
        ([.writeAttempt (structuredContent ctx elements extraPrompt) .failed], 1, .ok false)
      else
        match write 1 with
        | .ok =>
          ([.writeAttempt (structuredContent ctx elements extraPrompt) .failed,
            .writeAttempt (fallbackContent elements extraPrompt) .ok,
            .copySuccess (fallbackContent elements extraPrompt)], 2, .ok true)
        | .failed =>
          ([.writeAttempt (structuredContent ctx elements extraPrompt) .failed,
            .writeAttempt (fallbackContent elements extraPrompt) .failed], 2, .ok false)
        | .threw e =>
          ([.writeAttempt (structuredContent ctx elements extraPrompt) .failed,
            .writeAttempt (fallbackContent elements extraPrompt) (.threw e)], 2, .error e)

/-- The `catch` block of `tryCopyWithFallback`: `onCopyError` with the caught
error, then one more plain-text fallback attempt.  A rejection of this write
attempt propagates out of the orchestrator (there is no second `catch`). -/
def catchBlock (write : Nat → WriteRes) (attemptIdx : Nat) (elements : List Elem)
    (extraPrompt : Option String) (e : Nat) : List Ev × Except Nat Bool :=
  if (createCombinedTextContent elements).isEmpty then
    ([.copyError e], .ok false)
  else
    match write attemptIdx with
    | .ok =>
      ([.copyError e, .writeAttempt (fallbackContent elements extraPrompt) .ok], .ok true)
    | .failed =>
      ([.copyError e, .writeAttempt (fallbackContent elements extraPrompt) .failed], .ok false)
    | .threw e2 =>
      ([.copyError e, .writeAttempt (fallbackContent elements extraPrompt) (.threw e2)],
        .error e2)

/-- `tryCopyWithFallback`: `onBeforeCopy`, the `try` block, on a caught error
the `catch` block, then `onAfterCopy` with the element list and the final
`didCopy` (skipped when the catch-block write itself rejects, in which case the
rejection propagates). -/
def tryCopyWithFallback (write : Nat → WriteRes) (ctx : Elem → Except Nat String)
    (elements : List Elem) (extraPrompt : Option String) :
    List Ev × Except Nat Bool :=
  match tryBlock write ctx elements extraPrompt with
  | (tr, _, .ok didCopy) =>
    (Ev.beforeCopy elements :: tr ++ [Ev.afterCopy elements didCopy], .ok didCopy)
  | (tr, k, .error e) =>
    match catchBlock write k elements extraPrompt e with
    | (tr2, .ok didCopy) =>
      (Ev.beforeCopy elements :: tr ++ tr2 ++ [Ev.afterCopy elements didCopy], .ok didCopy)
    | (tr2, .error e2) =>
      (Ev.beforeCopy elements :: tr ++ tr2, .error e2)

/-- The public `copyElement` API: empty input short-circuits to `false`;
otherwise it awaits `onBeforeCopy`, runs `tryCopyWithFallback` (which invokes
the same hooks again itself), and invokes `onAfterCopy` with the result. -/
def copyElementAPI (write : Nat → WriteRes) (ctx : Elem → Except Nat String)
    (elements : List Elem) : List Ev × Except Nat Bool :=
  if elements.isEmpty then ([], .ok false)
  else
    match tryCopyWithFallback write ctx elements none with
    | (tr, .ok didCopy) =>
      (Ev.beforeCopy elements :: tr ++ [Ev.afterCopy elements didCopy], .ok didCopy)
    | (tr, .error e) =>
      (Ev.beforeCopy elements :: tr, .error e)

/-! ## Activation state machine -/

/-- Configuration constants imported by the core from `constants.js` and the
default option set (`keyHoldDuration` defaults to 200 in `init`). -/
structure Consts where
  keyHoldDuration : Nat
  dragThresholdPx : Nat
  blurThresholdMs : Nat
deriving DecidableEq, Repr

/-- `OFFSCREEN_POSITION` sentinel used to initialise coordinate signals (the
exact value lives in `constants.js`; no property here depends on it). -/
def OFFSCREEN_POSITION : Int := -10000

/-- Callback events observable by the host (`onActivate` / `onDeactivate`). -/
inductive CbEv where
  | activate
  | deactivate
deriving DecidableEq, Repr

/-- The signals of the activation state machine that the verified properties
are about, plus the pending/active status of the four timer-like resources
(hold timer, keydown spam-guard timer, autoscroll animation frame, progress
animation) and the activation timestamp used by the visibility handler. -/
structure MachineState where
  isHoldingKeys : Bool
  isActivated : Bool
  isDragging : Bool
  isCopying : Bool
  isInputMode : Bool
  isToggleMode : Bool
  isToggleFrozen : Bool
  isInputExpanded : Bool
  inputText : String
  didJustDrag : Bool
  dragStartX : Int
  dragStartY : Int
  holdTimerPending : Bool
  spamTimerPending : Bool
  autoScrollActive : Bool
  progressActive : Bool
  activationTimestamp : Option Nat
  frozenElement : Option Elem
  pendingCopies : Nat
  trace : List CbEv
deriving DecidableEq, Repr

/-- The initial signal values set up by `init`. -/
def initState : MachineState where
  isHoldingKeys := false
  isActivated := false
  isDragging := false
  isCopying := false
  isInputMode := false
  isToggleMode := false
  isToggleFrozen := false
  isInputExpanded := false
  inputText := ""
  didJustDrag := false
  dragStartX := OFFSCREEN_POSITION
  dragStartY := OFFSCREEN_POSITION
  holdTimerPending := false
  spamTimerPending := false
  autoScrollActive := false
  progressActive := false
  activationTimestamp := none
  frozenElement := none
  pendingCopies := 0
  trace := []

/-- `isRendererActive` memo: activated and not copying. -/
def isRendererActive (s : MachineState) : Bool :=
  s.isActivated && !s.isCopying

/-- `activateRenderer`: stops the progress animation, records the activation
timestamp, raises `isActivated` and fires `onActivate`. -/
def activateRenderer (now : Nat) (s : MachineState) : MachineState :=
  { s with
    progressActive := false
    activationTimestamp := some now
    isActivated := true
    trace := s.trace ++ [CbEv.activate] }

/-- `deactivateRenderer`: resets every mode flag and the input text, clears the
frozen element, ends dragging, clears the hold and spam-guard timers, stops
autoscroll and the progress animation, clears the activation timestamp and
fires `onDeactivate`. -/
def deactivateRenderer (s : MachineState) : MachineState :=
  { s with
    isToggleMode := false
    isHoldingKeys := false
    isActivated := false
    isInputMode := false
    inputText := ""
    isToggleFrozen := false
    isInputExpanded := false
    frozenElement := none
    isDragging := false
    holdTimerPending := false
    spamTimerPending := false
    autoScrollActive := false
    progressActive := false
    activationTimestamp := none
    trace := s.trace ++ [CbEv.deactivate] }

/-- A `keydown` event as seen by the handler, with the externally computed
predicates (`isTargetKeyCombination`, `MODIFIER_KEYS.includes(event.key)`)
carried as fields.  `now` is the clock value at the event (used by
`activateRenderer`). -/
structure KeyEv where
  isEscape : Bool
  isEnter : Bool
  isTarget : Bool
  isModifierKey : Bool
  repeats : Bool
  meta : Bool
  ctrl : Bool
  now : Nat
deriving DecidableEq, Repr

/-- The window `keydown` listener.  Overlay-originated events and the
`metaKey/ctrlKey` mic-toggle inside input mode do not change machine state;
`agentManager.isProcessing()` is `false` in this model, and
`allowActivationInsideInput` has its default value `true`, so those guards are
dropped.  The `cmd/ctrl+O` open-file branch changes no machine state and is
omitted. -/
def stepKeydown (e : KeyEv) (s : MachineState) : MachineState :=
  if s.isInputMode then s
  else if e.isEscape && s.isHoldingKeys then
    deactivateRenderer s
  else if e.isEnter && s.isHoldingKeys then
    let s1 := { s with
      isToggleMode := true
      isToggleFrozen := true
      isInputExpanded := true
      spamTimerPending := false }
    let s2 :=
      if !s1.isActivated then
        activateRenderer e.now { s1 with holdTimerPending := false }
      else s1
    { s2 with isInputMode := true }
  else
    let s1 :=
      if !e.isTarget && s.isActivated && !s.isToggleMode && (e.meta || e.ctrl)
          && !e.isModifierKey && !e.isEnter then
        deactivateRenderer s
      else s
    if !e.isTarget && !e.isEnter then s1
    else if s1.isActivated then
      if s1.isToggleMode then s1
      else if e.repeats then s1
      else { s1 with spamTimerPending := true }
    else if s1.isHoldingKeys && e.repeats then s1
    else { s1 with holdTimerPending := true, isHoldingKeys := true }

/-- A `keyup` event: the modifier flags still held at release time and the
result of the external `isCLikeKey(event.key, event.code)` predicate. -/
structure KeyUpEv where
  meta : Bool
  ctrl : Bool
  shift : Bool
  alt : Bool
  isActKey : Bool
deriving DecidableEq, Repr

/-- The window `keyup` listener, under the default options (no
`activationShortcut` / `activationKey`): the required modifiers are
`metaKey` and `ctrlKey`, so `isReleasingModifier` is `!meta && !ctrl`, and
`isReleasingActivationKey` is the `isCLikeKey` result. -/
def stepKeyup (e : KeyUpEv) (s : MachineState) : MachineState :=
  if !s.isHoldingKeys && !s.isActivated then s
  else if s.isInputMode then s
  else if s.isActivated then
    if !e.meta && !e.ctrl then
      if s.isToggleMode then s else deactivateRenderer s
    else if e.isActKey && s.spamTimerPending then
      { s with spamTimerPending := false }
    else s
  else if e.isActKey || (!e.meta && !e.ctrl) then
    if s.isToggleMode then s else deactivateRenderer s
  else s

/-- Firing of the hold timer armed by `keydown`: activates the renderer.  The
event is a no-op unless the timer is pending. -/
def stepHoldTimerFire (now : Nat) (s : MachineState) : MachineState :=
  if s.holdTimerPending then
    activateRenderer now { s with holdTimerPending := false }
  else s

/-- Firing of the keydown spam-guard timer: deactivates.  A no-op unless the
timer is pending. -/
def stepSpamTimerFire (s : MachineState) : MachineState :=
  if s.spamTimerPending then
    deactivateRenderer { s with spamTimerPending := false }
  else s

/-- `handlePointerDown`: begins a drag when the renderer is active and no copy
is in flight, recording the drag start in page coordinates.  Returns the new
state and the `didHandle` flag. -/
def handlePointerDown (x y sx sy : Int) (s : MachineState) : MachineState × Bool :=
  if !(isRendererActive s) || s.isCopying then (s, false)
  else
    ({ s with isDragging := true, dragStartX := x + sx, dragStartY := y + sy }, true)

/-- `handleInputCancel`: deactivates when in input mode, otherwise no-op. -/
def handleInputCancel (s : MachineState) : MachineState :=
  if !s.isInputMode then s else deactivateRenderer s

/-- The window `mousedown` listener (equally `touchstart`): in input mode the
pointer-down cancels the input; otherwise it is routed to
`handlePointerDown`. -/
def stepMousedown (x y sx sy : Int) (s : MachineState) : MachineState :=
  if s.isInputMode then handleInputCancel s
  else (handlePointerDown x y sx sy s).1

/-- `calculateDragDistance`: per-axis absolute displacement between the
recorded drag start and the pointer-up position, in page coordinates. -/
def calculateDragDistance (s : MachineState) (x y sx sy : Int) : Nat × Nat :=
  ((x + sx - s.dragStartX).natAbs, (y + sy - s.dragStartY).natAbs)

/-- A drag rectangle in viewport coordinates, as produced by
`calculateDragRectangle`. -/
structure Rect where
  x : Int
  y : Int
  width : Nat
  height : Nat
deriving DecidableEq, Repr

/-- `calculateDragRectangle`: the rectangle spanned by the drag start and the
pointer-up position, translated back to viewport coordinates. -/
def calculateDragRectangle (s : MachineState) (x y sx sy : Int) : Rect where
  x := min s.dragStartX (x + sx) - sx
  y := min s.dragStartY (y + sy) - sy
  width := (x + sx - s.dragStartX).natAbs
  height := (y + sy - s.dragStartY).natAbs

/-- The external DOM/geometry collaborators consumed by the pointer handlers,
plus whether an agent provider is registered. -/
structure World where
  elementAt : Int → Int → Option Elem
  elementsInDrag : Rect → List Elem
  elementsInDragLoose : Rect → List Elem
  hasAgent : Bool

/-- How a pointer-up resolved its target elements: the single
element-at-position lookup of a click-through grab, or the strict
rectangle query, or the loose (intersects) rectangle query. -/
inductive GrabResolution where
  | clickAt (found : Option Elem)
  | rectStrict (els : List Elem)
  | rectLoose (els : List Elem)
deriving DecidableEq, Repr

/-- The resolution logic of `handlePointerUp`: a drag gesture (displacement
beyond the threshold on either axis) queries the strict rectangle lookup and
falls back to the loose lookup exactly when the strict result is empty; below
the threshold the single element at the pointer-up position is looked up. -/
def resolvePointerUp (C : Consts) (w : World) (s : MachineState)
    (x y sx sy : Int) : GrabResolution :=
  if (calculateDragDistance s x y sx sy).1 > C.dragThresholdPx
      ∨ (calculateDragDistance s x y sx sy).2 > C.dragThresholdPx then
    if w.elementsInDrag (calculateDragRectangle s x y sx sy) = [] then
      .rectLoose (w.elementsInDragLoose (calculateDragRectangle s x y sx sy))
    else
      .rectStrict (w.elementsInDrag (calculateDragRectangle s x y sx sy))
  else
    .clickAt (w.elementAt x y)

/-- The synchronous prefix of `executeCopyOperation`: raises `isCopying` and
starts the progress animation.  Run by a `copyOpRun` event, not by the
pointer-up itself. -/
def startCopyOperation (s : MachineState) : MachineState :=
  { s with isCopying := true, progressActive := true }

/-- The `void getNearestComponentName(...).then(... executeCopyOperation ...)`
pattern of `handlePointerUp`: the copy continuation is only scheduled here;
`isCopying` is untouched until the continuation later runs (as a `copyOpRun`
event), and other input events may be processed in between. -/
def scheduleCopyOperation (s : MachineState) : MachineState :=
  { s with pendingCopies := s.pendingCopies + 1 }

/-- The drag-gesture continuation of `handlePointerUp` once elements are
resolved: with an agent provider it freezes the first element and enters input
mode; otherwise it schedules the copy operation behind the asynchronous
component-name lookup.  An empty resolution does nothing further. -/
def dragResolved (w : World) (els : List Elem) (s : MachineState) : MachineState :=
  match els with
  | [] => s
  | first :: _ =>
    if w.hasAgent then
      { s with
        frozenElement := some first
        isToggleMode := true
        isToggleFrozen := true
        isInputExpanded := true
        isInputMode := true }
    else scheduleCopyOperation s

/-- `handlePointerUp` (the window `mouseup`/`touchend` listener): ignored
unless dragging; otherwise ends the drag, stops autoscroll and dispatches on
the resolution. -/
def stepMouseup (C : Consts) (w : World) (x y sx sy : Int) (s : MachineState) :
    MachineState :=
  if !s.isDragging then s
  else
    let s1 := { s with isDragging := false, autoScrollActive := false }
    match resolvePointerUp C w s x y sx sy with
    | .clickAt none => s1
    | .clickAt (some _) => scheduleCopyOperation s1
    | .rectStrict els => dragResolved w els { s1 with didJustDrag := true }
    | .rectLoose els => dragResolved w els { s1 with didJustDrag := true }

/-- One scheduled `getNearestComponentName` continuation resolving: runs the
synchronous prefix of `executeCopyOperation`.  A no-op when no continuation is
scheduled.  Nothing cancels a scheduled continuation — not even deactivation —
matching the absence of promise cancellation in the source, so this event can
fire in any later state, including one where a new drag has begun. -/
def stepCopyOpRun (s : MachineState) : MachineState :=
  match s.pendingCopies with
  | 0 => s
  | n + 1 => startCopyOperation { s with pendingCopies := n }

/-- Completion of `executeCopyOperation` (its `finally` continuation): ends the
copy, stops the progress animation, and tears the activation down when the
toggle latch is engaged.  A no-op unless a copy is in flight. -/
def stepCopyComplete (s : MachineState) : MachineState :=
  if s.isCopying then
    let s1 := { s with isCopying := false, progressActive := false }
    if s1.isToggleMode then deactivateRenderer s1 else s1
  else s

/-- The document `visibilitychange` listener, restricted to the transition to
hidden: deactivates when activated, not in input mode, and more than the blur
threshold has elapsed since the recorded activation timestamp. -/
def stepVisibilityHidden (C : Consts) (now : Nat) (s : MachineState) : MachineState :=
  if s.isActivated && !s.isInputMode then
    match s.activationTimestamp with
    | some t => if now - t > C.blurThresholdMs then deactivateRenderer s else s
    | none => s
  else s

/-- The window `click` listener (capture phase). -/
def stepClick (s : MachineState) : MachineState :=
  if isRendererActive s || s.isCopying || s.didJustDrag then
    let s1 := if s.didJustDrag then { s with didJustDrag := false } else s
    if s1.isToggleMode && !s1.isCopying then
      if !s1.isHoldingKeys then deactivateRenderer s1
      else { s1 with isToggleMode := false }
    else s1
  else s

/-- Input events processed by the state machine. -/
inductive MEvent where
  | keydown (e : KeyEv)
  | keyup (e : KeyUpEv)
  | holdTimerFire (now : Nat)
  | spamTimerFire
  | mousedown (x y sx sy : Int)
  | mouseup (x y sx sy : Int)
  | copyOpRun
  | copyComplete
  | visibilityHidden (now : Nat)
  | click

/-- One step of the machine. -/
def step (C : Consts) (w : World) (ev : MEvent) (s : MachineState) : MachineState :=
  match ev with
  | .keydown e => stepKeydown e s
  | .keyup e => stepKeyup e s
  | .holdTimerFire now => stepHoldTimerFire now s
  | .spamTimerFire => stepSpamTimerFire s
  | .mousedown x y sx sy => stepMousedown x y sx sy s
  | .mouseup x y sx sy => stepMouseup C w x y sx sy s
  | .copyOpRun => stepCopyOpRun s
  | .copyComplete => stepCopyComplete s
  | .visibilityHidden now => stepVisibilityHidden C now s
  | .click => stepClick s

/-- Run a sequence of events. -/
def runEvents (C : Consts) (w : World) (evs : List MEvent) (s : MachineState) :
    MachineState :=
  evs.foldl (fun st ev => step C w ev st) s

/-! ## Cursor-style projection -/

/-- The cursor-override effect of the core: the decision ladder applied to
`(isActivated, isCopying, isDragging, isInputMode, targetElement)` whose result
is handed to `setCursorOverride` (`none` removes the override style
element). -/
def cursorOverride (activated copying dragging inputMode : Bool)
    (target : Option Elem) : Option String :=
  if copying then some "progress"
  else if inputMode then none
  else if activated && dragging then some "crosshair"
  else if activated && target.isSome then some "default"
  else if activated then some "crosshair"
  else none

/-- The cursor projection exactly as the specification words it, for
refinement against `cursorOverride`: copying wins over all, then input-mode
clears any override, then dragging forces crosshair, then a resolved target
forces default, then bare activation forces crosshair, else no override. -/
def cursorOverrideSpec (activated copying dragging inputMode hasTarget : Bool) :
    Option String :=
  if copying then some "progress"
  else if inputMode then none
  else if activated && dragging then some "crosshair"
  else if activated && hasTarget then some "default"
  else if activated then some "crosshair"
  else none

/-! ## The `init` guard -/

/-- The `getState()` record exposed to the host. -/
structure StateView where
  isActive : Bool
  isDragging : Bool
  isCopying : Bool
  isInputMode : Bool
  targetElement : Option Elem
  dragBounds : Option Rect
deriving DecidableEq, Repr

/-- The all-inactive state reported by the stub API. -/
def allInactiveState : StateView where
  isActive := false
  isDragging := false
  isCopying := false
  isInputMode := false
  targetElement := none
  dragBounds := none

/-- The inert API object returned by `init` when the instance is disabled or
already initialised: every query is constant and every command leaves the
running machine untouched. -/
structure StubAPI where
  isActive : Bool
  copyElement : List Elem → List Ev × Except Nat Bool
  getState : StateView
  activate : MachineState → MachineState
  deactivate : MachineState → MachineState
  toggle : MachineState → MachineState
  dispose : MachineState → MachineState

/-- The literal stub object of `init`. -/
def stubAPI : StubAPI where
  isActive := false
  copyElement := fun _ => ([], .ok false)
  getState := allInactiveState
  activate := fun s => s
  deactivate := fun s => s
  toggle := fun s => s
  dispose := fun s => s

/-- Result of `init`: either the stub, or a freshly started instance. -/
inductive InitOutcome where
  | stub (api : StubAPI)
  | started

/-- The `enabled === false || hasInited` guard of `init`: it returns the stub
and leaves the module-level `hasInited` flag unchanged; otherwise it starts the
instance and sets the flag.  (The returned flag is the new value of
`hasInited`.) -/
def initCore (enabled : Bool) (hasInitedFlag : Bool) : InitOutcome × Bool :=
  if enabled = false ∨ hasInitedFlag = true then (.stub stubAPI, hasInitedFlag)
  else (.started, true)

/-! ## Concrete instances used by witnesses and counterexamples -/

/-- A sample element. -/
def elemA : Elem := { id := 0, tag := "div", text := "hello" }

/-- A world in which every geometry query comes back empty and no agent
provider is registered. -/
def worldEmpty : World where
  elementAt := fun _ _ => none
  elementsInDrag := fun _ => []
  elementsInDragLoose := fun _ => []
  hasAgent := false

/-- Sample constants: default key-hold duration, a 4px drag threshold and a
100ms blur threshold. -/
def constsEx : Consts := { keyHoldDuration := 200, dragThresholdPx := 4, blurThresholdMs := 100 }

/-- A world whose element-at-point lookup finds `elemA` everywhere (rectangle
queries empty, no agent). -/
def worldHit : World where
  elementAt := fun _ _ => some elemA
  elementsInDrag := fun _ => []
  elementsInDragLoose := fun _ => []
  hasAgent := false

/-- A non-repeated press of the activation key combination. -/
def kdTargetEv : KeyEv where
  isEscape := false
  isEnter := false
  isTarget := true
  isModifierKey := false
  repeats := false
  meta := true
  ctrl := true
  now := 0

/-- An Enter keydown with the activation modifiers still held. -/
def kdEnterEv : KeyEv where
  isEscape := false
  isEnter := true
  isTarget := false
  isModifierKey := false
  repeats := false
  meta := true
  ctrl := true
  now := 1

/-- A repeated (OS key-repeat) press of the activation key combination. -/
def kdRepeatEv : KeyEv where
  isEscape := false
  isEnter := false
  isTarget := true
  isModifierKey := false
  repeats := true
  meta := true
  ctrl := true
  now := 2

/-- A keyup event releasing every modifier and the activation key. -/
def kuReleaseEv : KeyUpEv where
  meta := false
  ctrl := false
  shift := false
  alt := false
  isActKey := true

/-- A clipboard oracle whose first write attempt rejects with error 7 and
whose later attempts succeed. -/
def wThrow : Nat → WriteRes := fun n => if n = 0 then .threw 7 else .ok

/-- An activated machine state with a pending drag started at the page
origin. -/
def sDrag : MachineState :=
  { initState with isActivated := true, isDragging := true, dragStartX := 0, dragStartY := 0 }

/-- An activated machine state (activation recorded at time 0). -/
def sActive : MachineState :=
  { initState with isActivated := true, activationTimestamp := some 0 }

/-- A machine state holding the activation keys with the hold timer armed. -/
def sHolding : MachineState :=
  { initState with isHoldingKeys := true, holdTimerPending := true }

/-! ## Trace lemmas for the copy orchestrator -/

/-- The `try` block emits no `afterCopy`, `copyError` or `beforeCopy` events
and at most one `copySuccess` event. -/
theorem tryBlock_countP (write : Nat → WriteRes) (ctx : Elem → Except Nat String)
    (els : List Elem) (p : Option String) :
    ((tryBlock write ctx els p).1).countP Ev.isAfterCopy = 0
    ∧ ((tryBlock write ctx els p).1).countP Ev.isCopyError = 0
    ∧ ((tryBlock write ctx els p).1).countP Ev.isBeforeCopy = 0
    ∧ ((tryBlock write ctx els p).1).countP Ev.isCopySuccess ≤ 1 := by
  unfold tryBlock
  repeat' split
  all_goals simp [List.countP_cons, Ev.isAfterCopy, Ev.isCopyError, Ev.isBeforeCopy,
    Ev.isCopySuccess]

/-- Every `copySuccess` event of the `try` block is preceded by a successful
write attempt with the same content, and forces the block's result to be
`didCopy = true`. -/
theorem tryBlock_success (write : Nat → WriteRes) (ctx : Elem → Except Nat String)
    (els : List Elem) (p : Option String) (c : String)
    (h : Ev.copySuccess c ∈ (tryBlock write ctx els p).1) :
    Ev.writeAttempt c .ok ∈ (tryBlock write ctx els p).1
      ∧ (tryBlock write ctx els p).2.2 = .ok true := by
  unfold tryBlock at h ⊢
  repeat' split at h
  all_goals try simp_all

/-- The `catch` block fires `onCopyError` exactly once (with the caught error)
and emits no other hook events. -/
theorem catchBlock_countP (write : Nat → WriteRes) (k : Nat) (els : List Elem)
    (p : Option String) (e : Nat) :
    ((catchBlock write k els p e).1).countP Ev.isAfterCopy = 0
    ∧ ((catchBlock write k els p e).1).countP Ev.isCopyError = 1
    ∧ ((catchBlock write k els p e).1).countP Ev.isBeforeCopy = 0
    ∧ ((catchBlock write k els p e).1).countP Ev.isCopySuccess = 0
    ∧ Ev.copyError e ∈ (catchBlock write k els p e).1 := by
  unfold catchBlock
  repeat' split
  all_goals try simp [List.countP_cons, Ev.isAfterCopy, Ev.isCopyError, Ev.isBeforeCopy,
    Ev.isCopySuccess]

/-- The `catch` block only propagates an error that its own retry write
attempt rejected with. -/
theorem catchBlock_error (write : Nat → WriteRes) (k : Nat) (els : List Elem)
    (p : Option String) (e e2 : Nat)
    (h : (catchBlock write k els p e).2 = .error e2) :
    write k = .threw e2 := by
  unfold catchBlock at h
  repeat' split at h
  all_goals try simp_all

/-- When the combined text content is non-empty, the `catch` block performs a
write attempt with exactly the plain-text fallback content. -/
theorem catchBlock_write_mem (write : Nat → WriteRes) (k : Nat) (els : List Elem)
    (p : Option String) (e : Nat)
    (h : (createCombinedTextContent els).isEmpty = false) :
    Ev.writeAttempt (fallbackContent els p) (write k) ∈ (catchBlock write k els p e).1 := by
  unfold catchBlock
  repeat' split
  all_goals try simp_all

/-- When `tryCopyWithFallback` returns a boolean, its trace carries exactly one
`afterCopy` event, and that event is last and carries the returned outcome. -/
theorem tryCopy_ok_shape (write : Nat → WriteRes) (ctx : Elem → Except Nat String)
    (els : List Elem) (p : Option String) (b : Bool)
    (h : (tryCopyWithFallback write ctx els p).2 = .ok b) :
    ((tryCopyWithFallback write ctx els p).1).countP Ev.isAfterCopy = 1
    ∧ ((tryCopyWithFallback write ctx els p).1).getLast? = some (.afterCopy els b) := by
  rcases htb : tryBlock write ctx els p with ⟨tr, k, r⟩
  have htr : tr.countP Ev.isAfterCopy = 0 := by
    have := (tryBlock_countP write ctx els p).1
    rw [htb] at this; exact this
  cases r with
  | ok dc =>
    have heq : tryCopyWithFallback write ctx els p
        = (Ev.beforeCopy els :: tr ++ [Ev.afterCopy els dc], .ok dc) := by
      simp only [tryCopyWithFallback, htb]
    rw [heq] at h ⊢
    simp only [Except.ok.injEq] at h
    subst h
    refine ⟨?_, ?_⟩
    · simp [List.countP_cons, List.countP_append, Ev.isAfterCopy, htr]
    · exact List.getLast?_concat (Ev.beforeCopy els :: tr)
  | error e =>
    rcases hcb : catchBlock write k els p e with ⟨tr2, r2⟩
    have htr2 : tr2.countP Ev.isAfterCopy = 0 := by
      have := (catchBlock_countP write k els p e).1
      rw [hcb] at this; exact this
    cases r2 with
    | ok dc =>
      have heq : tryCopyWithFallback write ctx els p
          = (Ev.beforeCopy els :: tr ++ tr2 ++ [Ev.afterCopy els dc], .ok dc) := by
        simp only [tryCopyWithFallback, htb, hcb]
      rw [heq] at h ⊢
      simp only [Except.ok.injEq] at h
      subst h
      refine ⟨?_, ?_⟩
      · simp [List.countP_cons, List.countP_append, Ev.isAfterCopy, htr, htr2]
      · have hassoc : Ev.beforeCopy els :: tr ++ tr2 ++ [Ev.afterCopy els dc]
            = (Ev.beforeCopy els :: (tr ++ tr2)) ++ [Ev.afterCopy els dc] := by simp
        rw [hassoc]
        exact List.getLast?_concat _
    | error e2 =>
      have heq : tryCopyWithFallback write ctx els p
          = (Ev.beforeCopy els :: tr ++ tr2, .error e2) := by
        simp only [tryCopyWithFallback, htb, hcb]
      rw [heq] at h
      simp at h

/-- One orchestrator invocation fires `onCopySuccess` at most once. -/
theorem tryCopy_success_count (write : Nat → WriteRes) (ctx : Elem → Except Nat String)
    (els : List Elem) (p : Option String) :
    ((tryCopyWithFallback write ctx els p).1).countP Ev.isCopySuccess ≤ 1 := by
  rcases htb : tryBlock write ctx els p with ⟨tr, k, r⟩
  have h1 := (tryBlock_countP write ctx els p).2.2.2
  rw [htb] at h1
  cases r with
  | ok dc =>
    simp only [tryCopyWithFallback, htb]
    simpa [List.countP_cons, List.countP_append, Ev.isCopySuccess] using h1
  | error e =>
    rcases hcb : catchBlock write k els p e with ⟨tr2, r2⟩
    have h2 := (catchBlock_countP write k els p e).2.2.2.1
    rw [hcb] at h2
    cases r2 with
    | ok dc =>
      simp only [tryCopyWithFallback, htb, hcb]
      simpa [List.countP_cons, List.countP_append, Ev.isCopySuccess, h2] using h1
    | error e2 =>
      simp only [tryCopyWithFallback, htb, hcb]
      simpa [List.countP_cons, List.countP_append, Ev.isCopySuccess, h2] using h1

/-- One orchestrator invocation fires its own `onBeforeCopy` exactly once. -/
theorem tryCopy_beforeCopy_count (write : Nat → WriteRes) (ctx : Elem → Except Nat String)
    (els : List Elem) (p : Option String) :
    ((tryCopyWithFallback write ctx els p).1).countP Ev.isBeforeCopy = 1 := by
  rcases htb : tryBlock write ctx els p with ⟨tr, k, r⟩
  have h1 := (tryBlock_countP write ctx els p).2.2.1
  rw [htb] at h1
  cases r with
  | ok dc =>
    simp only [tryCopyWithFallback, htb]
    simp [List.countP_cons, List.countP_append, Ev.isBeforeCopy, h1]
  | error e =>
    rcases hcb : catchBlock write k els p e with ⟨tr2, r2⟩
    have h2 := (catchBlock_countP write k els p e).2.2.1
    rw [hcb] at h2
    cases r2 with
    | ok dc =>
      simp only [tryCopyWithFallback, htb, hcb]
      simp [List.countP_cons, List.countP_append, Ev.isBeforeCopy, h1, h2]
    | error e2 =>
      simp only [tryCopyWithFallback, htb, hcb]
      simp [List.countP_cons, List.countP_append, Ev.isBeforeCopy, h1, h2]

/-- A `copySuccess` event in an orchestrator trace is witnessed by a
successful write attempt with its content, and only occurs in invocations
that return `true` (in particular, never when the structured path threw). -/
theorem tryCopy_success_mem (write : Nat → WriteRes) (ctx : Elem → Except Nat String)
    (els : List Elem) (p : Option String) (c : String)
    (h : Ev.copySuccess c ∈ (tryCopyWithFallback write ctx els p).1) :
    Ev.writeAttempt c .ok ∈ (tryCopyWithFallback write ctx els p).1
    ∧ (tryCopyWithFallback write ctx els p).2 = .ok true := by
  rcases htb : tryBlock write ctx els p with ⟨tr, k, r⟩
  cases r with
  | ok dc =>
    have heq : tryCopyWithFallback write ctx els p
        = (Ev.beforeCopy els :: tr ++ [Ev.afterCopy els dc], .ok dc) := by
      simp only [tryCopyWithFallback, htb]
    rw [heq] at h ⊢
    have hmem : Ev.copySuccess c ∈ tr := by
      rcases List.mem_cons.mp h with h0 | h1
      · simp at h0
      · rcases List.mem_append.mp h1 with h2 | h3
        · exact h2
        · simp at h3
    have hs := tryBlock_success write ctx els p c (by rw [htb]; exact hmem)
    rw [htb] at hs
    simp only at hs
    refine ⟨?_, ?_⟩
    · exact List.mem_cons_of_mem _ (List.mem_append_left _ hs.1)
    · have hdc : dc = true := by
        have := hs.2
        simp only [Except.ok.injEq] at this
        exact this
      simp [hdc]
  | error e =>
    rcases hcb : catchBlock write k els p e with ⟨tr2, r2⟩
    have hnosucc := (catchBlock_countP write k els p e).2.2.2.1
    rw [hcb] at hnosucc
    simp only at hnosucc
    have hnotr2 : Ev.copySuccess c ∉ tr2 := by
      intro hm
      have := (List.countP_eq_zero.mp hnosucc) _ hm
      simp [Ev.isCopySuccess] at this
    have hintr : Ev.copySuccess c ∈ tr → False := by
      intro hmem
      have hs := tryBlock_success write ctx els p c (by rw [htb]; exact hmem)
      rw [htb] at hs
      simp only at hs
      exact absurd hs.2 (by simp)
    cases r2 with
    | ok dc =>
      have heq : tryCopyWithFallback write ctx els p
          = (Ev.beforeCopy els :: tr ++ tr2 ++ [Ev.afterCopy els dc], .ok dc) := by
        simp only [tryCopyWithFallback, htb, hcb]
      rw [heq] at h
      rcases List.mem_cons.mp h with h0 | h1
      · simp at h0
      · rcases List.mem_append.mp h1 with h2 | h3
        · rcases List.mem_append.mp h2 with h4 | h5
          · exact absurd h4 hintr
          · exact absurd h5 hnotr2
        · simp at h3
    | error e2 =>
      have heq : tryCopyWithFallback write ctx els p
          = (Ev.beforeCopy els :: tr ++ tr2, .error e2) := by
        simp only [tryCopyWithFallback, htb, hcb]
      rw [heq] at h
      rcases List.mem_cons.mp h with h0 | h1
      · simp at h0
      · rcases List.mem_append.mp h1 with h2 | h3
        · exact absurd h2 hintr
        · exact absurd h3 hnotr2

/-! ## State-machine lemmas -/

/-- The pointer-up handler always leaves `isDragging` false: it either ignores
the event (no drag was pending) or ends the drag before anything else. -/
theorem stepMouseup_isDragging (C : Consts) (w : World) (x y sx sy : Int)
    (s : MachineState) : (stepMouseup C w x y sx sy s).isDragging = false := by
  unfold stepMouseup dragResolved scheduleCopyOperation
  repeat' split
  all_goals simp_all

/-- The pointer-up handler never raises `isCopying` itself: a resolved grab
only schedules the asynchronous copy continuation. -/
theorem stepMouseup_isCopying (C : Consts) (w : World) (x y sx sy : Int)
    (s : MachineState) : (stepMouseup C w x y sx sy s).isCopying = s.isCopying := by
  unfold stepMouseup dragResolved scheduleCopyOperation
  repeat' split
  all_goals simp_all

/-! ## Claim theorems -/

/-- Claim C1, amended.  Entering dragging (a pointer-down that raises
`isDragging`) requires an activated renderer, no copy in flight and no input
mode; every pointer-up leaves `isDragging` false; and a pointer-up never
itself raises `isCopying` — it only schedules the asynchronous copy
continuation, which raises `isCopying` only when it later runs and may by then
interleave with new input events.  The original claim's three-way mutual
exclusion does not hold: see the counterexample theorem, where Enter pressed
during a drag leaves `isDragging` and `isInputMode` simultaneously true; and
since nothing cancels or guards the scheduled continuation, it can equally
raise `isCopying` after a new pointer-down has begun a drag — the final
conjunct exhibits such a run (click-grab pointer-up, new pointer-down, then
the scheduled continuation resolves), ending with `isDragging` and
`isCopying` simultaneously true. -/
theorem drag_copy_entry_guards (C : Consts) (w : World) (x y sx sy : Int)
    (s t : MachineState)
    (hPost : (stepMousedown x y sx sy s).isDragging = true)
    (hPre : s.isDragging = false) :
    s.isActivated = true ∧ s.isCopying = false ∧ s.isInputMode = false
    ∧ (stepMouseup C w x y sx sy t).isDragging = false
    ∧ (stepMouseup C w x y sx sy t).isCopying = t.isCopying
    ∧ ((runEvents constsEx worldHit
        [MEvent.mouseup 0 0 0 0, MEvent.mousedown 6 6 0 0, MEvent.copyOpRun]
        sDrag).isDragging = true
      ∧ (runEvents constsEx worldHit
        [MEvent.mouseup 0 0 0 0, MEvent.mousedown 6 6 0 0, MEvent.copyOpRun]
        sDrag).isCopying = true) := by
  refine ⟨?_, ?_, ?_, stepMouseup_isDragging C w x y sx sy t,
    stepMouseup_isCopying C w x y sx sy t, rfl, rfl⟩
  all_goals
    unfold stepMousedown handleInputCancel handlePointerDown isRendererActive
      deactivateRenderer at hPost
  all_goals
    repeat' split at hPost
  all_goals simp_all

/-- Claim C1, counterexample to the statement as written.  Hold the activation
combination, let the hold timer fire, press the pointer down (entering
dragging), then press Enter while still holding: the machine is now in input
mode while `isDragging` is still true, so `isDragging` and `isInputMode` are
simultaneously true, refuting "at most one of the three flags is true at any
instant" and "entering input mode excludes both". -/
theorem enter_during_drag_violates_exclusivity :
    (runEvents constsEx worldEmpty
      [MEvent.keydown kdTargetEv, MEvent.holdTimerFire 0,
       MEvent.mousedown 5 5 0 0, MEvent.keydown kdEnterEv] initState).isDragging = true
    ∧ (runEvents constsEx worldEmpty
      [MEvent.keydown kdTargetEv, MEvent.holdTimerFire 0,
       MEvent.mousedown 5 5 0 0, MEvent.keydown kdEnterEv] initState).isInputMode = true :=
  ⟨rfl, rfl⟩

/-- Claim C2.  A pointer-down/up pair with per-axis displacement at most the
drag threshold on both axes resolves through the single element-at-point
lookup at the up position (never a rectangle query); with displacement beyond
the threshold on at least one axis it resolves through the strict rectangle
query, and the loose (intersects) query is used exactly when the strict query
returns the empty set. -/
theorem pointer_up_resolution_modes (C : Consts) (w : World) (s : MachineState)
    (x y sx sy : Int) :
    ((calculateDragDistance s x y sx sy).1 ≤ C.dragThresholdPx
        ∧ (calculateDragDistance s x y sx sy).2 ≤ C.dragThresholdPx →
      resolvePointerUp C w s x y sx sy = .clickAt (w.elementAt x y))
    ∧ (C.dragThresholdPx < (calculateDragDistance s x y sx sy).1
        ∨ C.dragThresholdPx < (calculateDragDistance s x y sx sy).2 →
      resolvePointerUp C w s x y sx sy =
        (if w.elementsInDrag (calculateDragRectangle s x y sx sy) = [] then
          GrabResolution.rectLoose (w.elementsInDragLoose (calculateDragRectangle s x y sx sy))
        else
          GrabResolution.rectStrict (w.elementsInDrag (calculateDragRectangle s x y sx sy)))) := by
  constructor
  · intro hle
    unfold resolvePointerUp
    rw [if_neg]
    omega
  · intro hgt
    unfold resolvePointerUp
    rw [if_pos]
    omega

/-- Claim C2, witness: with a 4px threshold, an up-event 3px away resolves as
a click-through grab at the up position, and one 10px away resolves through
the rectangle queries (loose, since the strict query is empty here). -/
theorem pointer_up_resolution_modes_witness :
    resolvePointerUp constsEx worldEmpty sDrag 3 0 0 0 = .clickAt none
    ∧ resolvePointerUp constsEx worldEmpty sDrag 10 0 0 0 = .rectLoose [] := by
  constructor
  · have h := (pointer_up_resolution_modes constsEx worldEmpty sDrag 3 0 0 0).1 (by decide)
    simpa [worldEmpty] using h
  · have h := (pointer_up_resolution_modes constsEx worldEmpty sDrag 10 0 0 0).2
      (Or.inl (by decide))
    simpa [worldEmpty] using h

/-- Claim C3, amended.  Within one `tryCopyWithFallback` invocation on a
non-empty element list: the success hook fires at most once, only backed by a
successful clipboard write of the same final content and only in invocations
returning `true`; the after-copy hook fires exactly once, last, with the
element list and the final outcome, whenever the orchestrator returns its
boolean.  The public `copyElement` API wraps the orchestrator in a second
before-copy/after-copy pair, so through `copyElement` those two hooks fire
twice (see the counterexample theorem). -/
theorem copy_hooks_discipline (write : Nat → WriteRes) (ctx : Elem → Except Nat String)
    (els : List Elem) (p : Option String) (hne : els ≠ []) :
    (∀ b, (tryCopyWithFallback write ctx els p).2 = .ok b →
        ((tryCopyWithFallback write ctx els p).1).countP Ev.isAfterCopy = 1
        ∧ ((tryCopyWithFallback write ctx els p).1).getLast? = some (.afterCopy els b))
    ∧ ((tryCopyWithFallback write ctx els p).1).countP Ev.isCopySuccess ≤ 1
    ∧ (∀ c, Ev.copySuccess c ∈ (tryCopyWithFallback write ctx els p).1 →
        Ev.writeAttempt c .ok ∈ (tryCopyWithFallback write ctx els p).1
        ∧ (tryCopyWithFallback write ctx els p).2 = .ok true)
    ∧ (∀ b, (tryCopyWithFallback write ctx els none).2 = .ok b →
        ((copyElementAPI write ctx els).1).countP Ev.isAfterCopy = 2
        ∧ ((copyElementAPI write ctx els).1).countP Ev.isBeforeCopy = 2) := by
  refine ⟨fun b hb => tryCopy_ok_shape write ctx els p b hb,
    tryCopy_success_count write ctx els p,
    fun c hc => tryCopy_success_mem write ctx els p c hc,
    fun b hb => ?_⟩
  have hempty : els.isEmpty = false := by
    cases els with
    | nil => exact absurd rfl hne
    | cons a l => rfl
  have hafter := (tryCopy_ok_shape write ctx els none b hb).1
  have hbefore := tryCopy_beforeCopy_count write ctx els none
  rcases htc : tryCopyWithFallback write ctx els none with ⟨tr, r⟩
  rw [htc] at hb hafter hbefore
  simp only at hb hafter hbefore
  subst hb
  have heq : copyElementAPI write ctx els
      = (Ev.beforeCopy els :: tr ++ [Ev.afterCopy els b], .ok b) := by
    simp only [copyElementAPI, hempty, htc]
    rfl
  rw [heq]
  constructor
  · simp [List.countP_cons, List.countP_append, Ev.isAfterCopy, hafter]
  · simp [List.countP_cons, List.countP_append, Ev.isBeforeCopy, hbefore]

/-- Claim C3, counterexample to the statement as written.  Copying one element
through the public `copyElement` API with a context snippet available and a
functioning clipboard fires `onAfterCopy` twice (and `onBeforeCopy` twice):
once inside `tryCopyWithFallback` and once more in the API wrapper — refuting
"the after-copy hook runs exactly once ... including the public copyElement
API". -/
theorem copy_element_api_fires_after_copy_twice :
    ((copyElementAPI (fun _ => .ok) (fun _ => .ok "snippet") [elemA]).1).countP
      Ev.isAfterCopy = 2
    ∧ ((copyElementAPI (fun _ => .ok) (fun _ => .ok "snippet") [elemA]).1).countP
      Ev.isBeforeCopy = 2 :=
  ⟨rfl, rfl⟩

/-- Claim C3, witness for the amended theorem at a concrete environment: one
element, a resolvable snippet and a functioning clipboard. -/
theorem copy_hooks_discipline_witness :
    ((tryCopyWithFallback (fun _ => .ok) (fun _ => .ok "snippet") [elemA] none).1.countP
        Ev.isAfterCopy = 1
      ∧ (tryCopyWithFallback (fun _ => .ok) (fun _ => .ok "snippet") [elemA] none).1.getLast?
          = some (.afterCopy [elemA] true))
    ∧ ((copyElementAPI (fun _ => .ok) (fun _ => .ok "snippet") [elemA]).1.countP
        Ev.isAfterCopy = 2
      ∧ (copyElementAPI (fun _ => .ok) (fun _ => .ok "snippet") [elemA]).1.countP
        Ev.isBeforeCopy = 2) :=
  ⟨(copy_hooks_discipline (fun _ => .ok) (fun _ => .ok "snippet") [elemA] none
      (by simp)).1 true rfl,
   (copy_hooks_discipline (fun _ => .ok) (fun _ => .ok "snippet") [elemA] none
      (by simp)).2.2.2 true rfl⟩

/-- Claim C4.  Calling `copyElement` with an empty element list resolves to
`false` with an empty event trace: no clipboard write attempt and no hook
invocation of any kind. -/
theorem copy_element_empty_list_noop (write : Nat → WriteRes)
    (ctx : Elem → Except Nat String) :
    copyElementAPI write ctx [] = ([], .ok false) := rfl

/-- Claim C5.  When the `try` block of a copy invocation throws (result
`error e`): the copy-error hook fires exactly once, with that error; the
caught error itself never escapes (any error the orchestrator propagates is
one freshly rejected by the catch-block retry write, `write k`); and when the
plain-text fallback content is non-empty, one more write attempt is performed
with exactly the trimmed/joined/instruction-prefixed fallback text before the
orchestrator returns. -/
theorem structured_throw_recovery (write : Nat → WriteRes) (ctx : Elem → Except Nat String)
    (els : List Elem) (p : Option String) (tr : List Ev) (k e : Nat)
    (h : tryBlock write ctx els p = (tr, k, .error e)) :
    ((tryCopyWithFallback write ctx els p).1).countP Ev.isCopyError = 1
    ∧ Ev.copyError e ∈ (tryCopyWithFallback write ctx els p).1
    ∧ (∀ e2, (tryCopyWithFallback write ctx els p).2 = .error e2 → write k = .threw e2)
    ∧ ((createCombinedTextContent els).isEmpty = false →
        Ev.writeAttempt (fallbackContent els p) (write k)
          ∈ (tryCopyWithFallback write ctx els p).1) := by
  have htrerr : tr.countP Ev.isCopyError = 0 := by
    have := (tryBlock_countP write ctx els p).2.1
    rw [h] at this; exact this
  rcases hcb : catchBlock write k els p e with ⟨tr2, r2⟩
  have hc := catchBlock_countP write k els p e
  rw [hcb] at hc
  simp only at hc
  have hwm := fun hemp => catchBlock_write_mem write k els p e hemp
  rw [hcb] at hwm
  simp only at hwm
  cases r2 with
  | ok dc =>
    have heq : tryCopyWithFallback write ctx els p
        = (Ev.beforeCopy els :: tr ++ tr2 ++ [Ev.afterCopy els dc], .ok dc) := by
      simp only [tryCopyWithFallback, h, hcb]
    rw [heq]
    refine ⟨?_, ?_, ?_, ?_⟩
    · simp [List.countP_cons, List.countP_append, Ev.isCopyError, htrerr, hc.2.1]
    · exact List.mem_cons_of_mem _
        (List.mem_append_left _ (List.mem_append_right _ hc.2.2.2.2))
    · intro e2 habs
      simp at habs
    · intro hemp
      exact List.mem_cons_of_mem _
        (List.mem_append_left _ (List.mem_append_right _ (hwm hemp)))
  | error e2 =>
    have heq : tryCopyWithFallback write ctx els p
        = (Ev.beforeCopy els :: tr ++ tr2, .error e2) := by
      simp only [tryCopyWithFallback, h, hcb]
    rw [heq]
    refine ⟨?_, ?_, ?_, ?_⟩
    · simp [List.countP_cons, List.countP_append, Ev.isCopyError, htrerr, hc.2.1]
    · exact List.mem_cons_of_mem _ (List.mem_append_right _ hc.2.2.2.2)
    · intro e3 habs
      simp only [Except.error.injEq] at habs
      rw [← habs]
      exact catchBlock_error write k els p e e2 (by rw [hcb])
    · intro hemp
      exact List.mem_cons_of_mem _ (List.mem_append_right _ (hwm hemp))

/-- Claim C5, witness: the structured write rejects with error 7, the error
hook fires once with 7, and the fallback text of the element is retried. -/
theorem structured_throw_recovery_witness :
    ((tryCopyWithFallback wThrow (fun _ => .ok "snippet") [elemA] none).1.countP
        Ev.isCopyError = 1)
    ∧ Ev.copyError 7 ∈ (tryCopyWithFallback wThrow (fun _ => .ok "snippet") [elemA] none).1
    ∧ Ev.writeAttempt (fallbackContent [elemA] none) (wThrow 1)
        ∈ (tryCopyWithFallback wThrow (fun _ => .ok "snippet") [elemA] none).1 :=
  ⟨(structured_throw_recovery wThrow (fun _ => .ok "snippet") [elemA] none
      [.writeAttempt "snippet" (.threw 7)] 1 7 rfl).1,
   (structured_throw_recovery wThrow (fun _ => .ok "snippet") [elemA] none
      [.writeAttempt "snippet" (.threw 7)] 1 7 rfl).2.1,
   (structured_throw_recovery wThrow (fun _ => .ok "snippet") [elemA] none
      [.writeAttempt "snippet" (.threw 7)] 1 7 rfl).2.2.2 rfl⟩

/-- Claim C6, amended.  When the document becomes hidden while activated, not
in input mode, and more than the blur threshold has elapsed since activation,
the machine deactivates and every pending timer-like resource (hold timer,
spam-guard timer, autoscroll frame, progress animation) is cleared; while in
input mode, or within the threshold of the activation timestamp, the hidden
event leaves the state untouched. -/
theorem visibility_hidden_deactivation (C : Consts) (now t : Nat) (s : MachineState)
    (hAct : s.isActivated = true) (hTs : s.activationTimestamp = some t) :
    (s.isInputMode = false → C.blurThresholdMs < now - t →
      stepVisibilityHidden C now s = deactivateRenderer s
      ∧ (stepVisibilityHidden C now s).isActivated = false
      ∧ (stepVisibilityHidden C now s).holdTimerPending = false
      ∧ (stepVisibilityHidden C now s).spamTimerPending = false
      ∧ (stepVisibilityHidden C now s).autoScrollActive = false
      ∧ (stepVisibilityHidden C now s).progressActive = false)
    ∧ (s.isInputMode = true ∨ now - t ≤ C.blurThresholdMs →
      stepVisibilityHidden C now s = s) := by
  constructor
  · intro hInp hThresh
    have heq : stepVisibilityHidden C now s = deactivateRenderer s := by
      unfold stepVisibilityHidden
      simp_all
    rw [heq]
    exact ⟨rfl, rfl, rfl, rfl, rfl, rfl⟩
  · intro hcase
    unfold stepVisibilityHidden
    rcases hcase with h | h <;> simp_all

/-- Claim C6, counterexample to the statement as written.  With a 100ms blur
threshold, activate at time 0 and hide the tab at time 50: the handler
compares the time since *activation* (50 ≤ 100), so it does not deactivate —
and with no timers pending, the machine stays activated no matter how long the
tab then stays hidden, refuting "whenever the tab stays hidden for longer than
the blur threshold, the machine deactivates". -/
theorem hidden_within_grace_never_deactivates :
    (runEvents constsEx worldEmpty
      [MEvent.keydown kdTargetEv, MEvent.holdTimerFire 0,
       MEvent.visibilityHidden 50] initState).isActivated = true
    ∧ (runEvents constsEx worldEmpty
      [MEvent.keydown kdTargetEv, MEvent.holdTimerFire 0,
       MEvent.visibilityHidden 50] initState).holdTimerPending = false
    ∧ (runEvents constsEx worldEmpty
      [MEvent.keydown kdTargetEv, MEvent.holdTimerFire 0,
       MEvent.visibilityHidden 50] initState).spamTimerPending = false
    ∧ (runEvents constsEx worldEmpty
      [MEvent.keydown kdTargetEv, MEvent.holdTimerFire 0,
       MEvent.visibilityHidden 50] initState).autoScrollActive = false
    ∧ (runEvents constsEx worldEmpty
      [MEvent.keydown kdTargetEv, MEvent.holdTimerFire 0,
       MEvent.visibilityHidden 50] initState).progressActive = false :=
  ⟨rfl, rfl, rfl, rfl, rfl⟩

/-- Claim C6, witness for the amended theorem: activation at time 0, hidden at
time 200 with a 100ms threshold deactivates and clears every timer. -/
theorem visibility_hidden_deactivation_witness :
    stepVisibilityHidden constsEx 200 sActive = deactivateRenderer sActive
    ∧ (stepVisibilityHidden constsEx 200 sActive).isActivated = false
    ∧ (stepVisibilityHidden constsEx 200 sActive).holdTimerPending = false
    ∧ (stepVisibilityHidden constsEx 200 sActive).spamTimerPending = false
    ∧ (stepVisibilityHidden constsEx 200 sActive).autoScrollActive = false
    ∧ (stepVisibilityHidden constsEx 200 sActive).progressActive = false :=
  (visibility_hidden_deactivation constsEx 200 0 sActive rfl rfl).1 rfl (by decide)

/-- Claim C7.  Releasing the activation modifier (or activation key) while in
`HoldingKeys` — holding, not yet activated, no toggle latch, not in input
mode — deactivates and clears the hold timer, so the machine does not become
activated, and a subsequent hold-timer firing event is a no-op. -/
theorem release_during_hold_prevents_activation (e : KeyUpEv) (s : MachineState) (now : Nat)
    (hHold : s.isHoldingKeys = true) (hAct : s.isActivated = false)
    (hTog : s.isToggleMode = false) (hInp : s.isInputMode = false)
    (hRel : e.isActKey = true ∨ (e.meta = false ∧ e.ctrl = false)) :
    (stepKeyup e s).isActivated = false
    ∧ (stepKeyup e s).isHoldingKeys = false
    ∧ (stepKeyup e s).holdTimerPending = false
    ∧ (stepHoldTimerFire now (stepKeyup e s)).isActivated = false := by
  have heq : stepKeyup e s = deactivateRenderer s := by
    unfold stepKeyup
    rcases hRel with h | ⟨h1, h2⟩ <;> simp_all
  rw [heq]
  refine ⟨rfl, rfl, rfl, ?_⟩
  unfold stepHoldTimerFire deactivateRenderer
  simp

/-- Claim C7, witness: releasing everything while holding with the hold timer
armed never reaches activation. -/
theorem release_during_hold_prevents_activation_witness :
    (stepKeyup kuReleaseEv sHolding).isActivated = false
    ∧ (stepKeyup kuReleaseEv sHolding).isHoldingKeys = false
    ∧ (stepKeyup kuReleaseEv sHolding).holdTimerPending = false
    ∧ (stepHoldTimerFire 300 (stepKeyup kuReleaseEv sHolding)).isActivated = false :=
  release_during_hold_prevents_activation kuReleaseEv sHolding 300 rfl rfl rfl rfl (Or.inl rfl)

/-- Claim C8.  A repeated (OS key-repeat) keydown of the activation combination
while holding keys or while activated leaves the machine state unchanged: the
hold timer is not re-armed, the spam-guard timer is not touched, and no second
activation (no `onActivate` callback) occurs. -/
theorem repeat_keydown_is_noop (e : KeyEv) (s : MachineState)
    (hRep : e.repeats = true) (hTgt : e.isTarget = true)
    (hEsc : e.isEscape = false) (hEnt : e.isEnter = false)
    (hInp : s.isInputMode = false)
    (hMode : s.isHoldingKeys = true ∨ s.isActivated = true) :
    stepKeydown e s = s := by
  unfold stepKeydown
  rcases hMode with h | h <;> simp_all

/-- Claim C8, witness: a repeated activation-combination keydown while holding
keys with the hold timer armed changes nothing. -/
theorem repeat_keydown_is_noop_witness :
    stepKeydown kdRepeatEv sHolding = sHolding :=
  repeat_keydown_is_noop kdRepeatEv sHolding rfl rfl rfl rfl rfl (Or.inl rfl)

/-- Claim C9.  The cursor override is a pure function of
`(activated, copying, dragging, inputMode, hasTarget)` evaluated in the fixed
priority order the specification states: copying yields the progress cursor
regardless of all other flags, then input mode clears any override, then
activated-and-dragging yields crosshair, then activated with a resolved target
yields default, then bare activation yields crosshair, else no override. -/
theorem cursor_override_matches_spec (activated copying dragging inputMode : Bool)
    (target : Option Elem) :
    cursorOverride activated copying dragging inputMode target
      = cursorOverrideSpec activated copying dragging inputMode target.isSome := by
  cases target <;> cases activated <;> cases copying <;> cases dragging <;> cases inputMode
    <;> rfl

/-- Claim C10.  When the enabled option is false or the module-level guard
records an already-initialised instance, `init` returns the inert stub without
touching the guard: its `isActive` is constantly false, `copyElement` resolves
to `false` with no write attempts and no hooks, `getState` reports the
all-inactive state, and activate/deactivate/toggle/dispose leave any machine
state unchanged. -/
theorem init_guard_returns_stub (enabled hasInitedFlag : Bool)
    (h : enabled = false ∨ hasInitedFlag = true) :
    initCore enabled hasInitedFlag = (.stub stubAPI, hasInitedFlag)
    ∧ stubAPI.isActive = false
    ∧ (∀ els, stubAPI.copyElement els = ([], .ok false))
    ∧ stubAPI.getState = allInactiveState
    ∧ (∀ s, stubAPI.activate s = s ∧ stubAPI.deactivate s = s
        ∧ stubAPI.toggle s = s ∧ stubAPI.dispose s = s) := by
  refine ⟨?_, rfl, fun _ => rfl, rfl, fun _ => ⟨rfl, rfl, rfl, rfl⟩⟩
  unfold initCore
  rw [if_pos h]

/-- Claim C10, witness: a second `init` while already initialised yields the
stub, whose operations are inert. -/
theorem init_guard_returns_stub_witness :
    initCore true true = (.stub stubAPI, true)
    ∧ stubAPI.copyElement [elemA] = ([], .ok false)
    ∧ stubAPI.activate sActive = sActive :=
  ⟨(init_guard_returns_stub true true (Or.inr rfl)).1,
   (init_guard_returns_stub true true (Or.inr rfl)).2.2.1 [elemA],
   ((init_guard_returns_stub true true (Or.inr rfl)).2.2.2.2 sActive).1⟩

/-- Claim C1, witness for the amended theorem: a successful pointer-down on an
activated state presupposed an active renderer with no copy and no input mode,
and a pointer-up on a dragging state ends the drag without raising
`isCopying`. -/
theorem drag_copy_entry_guards_witness :
    sActive.isActivated = true ∧ sActive.isCopying = false ∧ sActive.isInputMode = false
    ∧ (stepMouseup constsEx worldEmpty 0 0 0 0 sDrag).isDragging = false
    ∧ (stepMouseup constsEx worldEmpty 0 0 0 0 sDrag).isCopying = sDrag.isCopying
    ∧ ((runEvents constsEx worldHit
        [MEvent.mouseup 0 0 0 0, MEvent.mousedown 6 6 0 0, MEvent.copyOpRun]
        sDrag).isDragging = true
      ∧ (runEvents constsEx worldHit
        [MEvent.mouseup 0 0 0 0, MEvent.mousedown 6 6 0 0, MEvent.copyOpRun]
        sDrag).isCopying = true) :=
  drag_copy_entry_guards constsEx worldEmpty 0 0 0 0 sActive sDrag rfl rfl

end ReactGrab
